import Mathlib

/-!
Shallow embedding of the status-simulation, booking and pricing core of the
Rust International Airport repository (src/modules/flight.rs, booking.rs,
admin.rs, aircraft.rs and src/data/manager.rs), together with theorems
settling the specification claims about it.

Modelling conventions:
* Rust `String` is modelled as `List Char` (airport codes and patterns are
  ASCII, so byte slicing in the source coincides with character slicing);
  string literals enter through `String.data`.
* `DateTime<Utc>` is modelled as `Int`, seconds since the epoch;
  `Duration::minutes(m)` is `60 * m` seconds.
* `f64` prices and multipliers are modelled as `ℚ` (exact arithmetic).
* `Uuid` is modelled as `Nat`.
* Sources of ambient non-determinism in the Rust code (`Utc::now()`,
  `Uuid::new_v4()`, the time-hash feeding `generate_ticket_number`) are
  threaded as explicit parameters.
* `&mut self` methods returning `Result` become functions returning the
  result value together with the new state; Rust early returns leave the
  state unchanged, so error branches return the input state.
-/

/-- Substring test: `isSubstring needle hay` holds iff `needle` occurs
contiguously inside `hay`; models Rust `str::contains(&str)`. -/
def isSubstring (needle : List Char) : List Char → Bool
  | [] => needle.isEmpty
  | c :: rest => needle.isPrefixOf (c :: rest) || isSubstring needle rest

/-- Models Rust `str::starts_with('*')`. -/
def startsWithStar (l : List Char) : Bool :=
  match l with
  | [] => false
  | c :: _ => c == '*'

/-- Models Rust `str::ends_with('*')`. -/
def endsWithStar (l : List Char) : Bool :=
  match l.getLast? with
  | none => false
  | some c => c == '*'

/-- Models Rust `str::trim_start_matches('*')`: drop every leading star. -/
def trimStartStars (l : List Char) : List Char :=
  l.dropWhile (fun c => c == '*')

/-- Models Rust `str::trim_end_matches('*')`: drop every trailing star. -/
def trimEndStars (l : List Char) : List Char :=
  (l.reverse.dropWhile (fun c => c == '*')).reverse

/-- Hour-of-day of a timestamp in seconds, as chrono's `DateTime::hour()`
computes it for `Utc` (floor division; result in `0..23`). -/
def hourOfTime (t : Int) : Nat :=
  ((t.ediv 3600).emod 24).toNat

/-- `FlightStatus` from src/modules/flight.rs. -/
inductive FlightStatus
  | OnTime
  | Delayed (minutes : Int)
  | Boarding
  | Departed
  | Arrived
  | Cancelled
deriving DecidableEq, Repr

/-- `SeatClass` from src/modules/flight.rs. -/
inductive SeatClass
  | Economy
  | Business
  | FirstClass
deriving DecidableEq, Repr

/-- `SeatAvailability` from src/modules/flight.rs. -/
structure SeatAvailability where
  economy : Nat
  business : Nat
  first_class : Nat
deriving DecidableEq, Repr

/-- `FlightPricing` from src/modules/flight.rs. -/
structure FlightPricing where
  economy : ℚ
  business : ℚ
  first_class : ℚ
  dynamic_multiplier : ℚ
deriving DecidableEq, Repr

/-- `Flight` from src/modules/flight.rs (the serde-only `baggage_allowance`
map is kept as an association list). -/
structure Flight where
  id : Nat
  flight_number : List Char
  airline : List Char
  origin : List Char
  destination : List Char
  departure_time : Int
  arrival_time : Int
  status : FlightStatus
  aircraft_id : Nat
  gate : Option (List Char)
  seat_availability : SeatAvailability
  pricing : FlightPricing
  total_capacity : Nat
  baggage_allowance : List (SeatClass × Nat)
deriving DecidableEq, Repr

/-- `Flight::is_available_for_booking` (flight.rs): bookable iff status is
OnTime or Delayed and departure is strictly in the future. -/
def Flight.is_available_for_booking (f : Flight) (now : Int) : Bool :=
  (match f.status with
   | FlightStatus.OnTime => true
   | FlightStatus.Delayed _ => true
   | _ => false) && decide (now < f.departure_time)

/-- `Flight::get_available_seats` (flight.rs). -/
def Flight.get_available_seats (f : Flight) (c : SeatClass) : Nat :=
  match c with
  | SeatClass.Economy => f.seat_availability.economy
  | SeatClass.Business => f.seat_availability.business
  | SeatClass.FirstClass => f.seat_availability.first_class

/-- `Flight::get_price` (flight.rs): per-class base price times the
per-flight dynamic multiplier. -/
def Flight.get_price (f : Flight) (c : SeatClass) : ℚ :=
  (match c with
   | SeatClass.Economy => f.pricing.economy
   | SeatClass.Business => f.pricing.business
   | SeatClass.FirstClass => f.pricing.first_class) * f.pricing.dynamic_multiplier

/-- `Flight::book_seat` (flight.rs): re-checks bookability, then decrements
the requested class counter if a seat remains. -/
def Flight.book_seat (f : Flight) (now : Int) (c : SeatClass) : Except (List Char) Flight :=
  if !(f.is_available_for_booking now) then
    Except.error ("Flight is not available for booking".data)
  else
    match c with
    | SeatClass.Economy =>
        if f.seat_availability.economy > 0 then
          Except.ok { f with seat_availability := { f.seat_availability with economy := f.seat_availability.economy - 1 } }
        else Except.error ("No economy seats available".data)
    | SeatClass.Business =>
        if f.seat_availability.business > 0 then
          Except.ok { f with seat_availability := { f.seat_availability with business := f.seat_availability.business - 1 } }
        else Except.error ("No business seats available".data)
    | SeatClass.FirstClass =>
        if f.seat_availability.first_class > 0 then
          Except.ok { f with seat_availability := { f.seat_availability with first_class := f.seat_availability.first_class - 1 } }
        else Except.error ("No first class seats available".data)

/-- `Flight::set_delay` (flight.rs): positive minutes set `Delayed` and push
the arrival time back by that many minutes; otherwise reset to `OnTime`
without touching the arrival time. -/
def Flight.set_delay (f : Flight) (minutes : Int) : Flight :=
  if minutes > 0 then
    { f with status := FlightStatus.Delayed minutes,
             arrival_time := f.arrival_time + 60 * minutes }
  else
    { f with status := FlightStatus.OnTime }

/-- `Flight::get_status_display` (flight.rs). -/
def Flight.get_status_display (f : Flight) : List Char :=
  match f.status with
  | FlightStatus.OnTime => "On Time ✅".data
  | FlightStatus.Delayed mins => "Delayed ".data ++ (toString mins).data ++ " min ⏰".data
  | FlightStatus.Boarding => "Boarding 🚪".data
  | FlightStatus.Departed => "Departed ✈️".data
  | FlightStatus.Arrived => "Arrived 🛬".data
  | FlightStatus.Cancelled => "Cancelled ❌".data

/-- `PricingRule` from src/modules/admin.rs. -/
structure PricingRule where
  id : Nat
  rule_name : List Char
  route_pattern : Option (List Char)
  time_period : Option (Nat × Nat)
  multiplier : ℚ
  is_active : Bool
  created_by : Nat
  created_date : Int
deriving DecidableEq, Repr

/-- `PricingRule::applies_to_route` (admin.rs): wildcard matching of the
pattern against the combined string `"{origin}-{destination}"`. -/
def PricingRule.applies_to_route (r : PricingRule) (origin destination : List Char) : Bool :=
  match r.route_pattern with
  | some pattern =>
      let route := origin ++ '-' :: destination
      if pattern.contains '*' then
        if startsWithStar pattern && endsWithStar pattern then
          isSubstring (trimEndStars (trimStartStars pattern)) route
        else if startsWithStar pattern then
          (pattern.drop 1).isSuffixOf route
        else if endsWithStar pattern then
          (pattern.dropLast).isPrefixOf route
        else
          false
      else
        route == pattern
  | none => true

/-- `PricingRule::applies_to_time` (admin.rs): inclusive hour-range check,
no wraparound. -/
def PricingRule.applies_to_time (r : PricingRule) (hour : Nat) : Bool :=
  match r.time_period with
  | some (s, e) => s ≤ hour && hour ≤ e
  | none => true

/-- `AdminLevel` from src/modules/admin.rs. -/
inductive AdminLevel
  | SuperAdmin
  | FlightManager
  | AircraftManager
  | FinanceManager
  | Viewer
deriving DecidableEq, Repr

/-- `AdminUser` from src/modules/admin.rs. -/
structure AdminUser where
  id : Nat
  username : List Char
  full_name : List Char
  email : List Char
  level : AdminLevel
  created_date : Int
  last_login : Option Int
  is_active : Bool
deriving DecidableEq, Repr

/-- `AdminUser::can_manage_flights` (admin.rs). -/
def AdminUser.can_manage_flights (a : AdminUser) : Bool :=
  match a.level with
  | AdminLevel.SuperAdmin => true
  | AdminLevel.FlightManager => true
  | _ => false

/-- `AdminAction` from src/modules/admin.rs. -/
structure AdminAction where
  id : Nat
  admin_id : Nat
  action_type : List Char
  description : List Char
  timestamp : Int
  affected_entity_id : Option Nat
  old_value : Option (List Char)
  new_value : Option (List Char)
deriving DecidableEq, Repr

/-- `SystemMetrics` from src/modules/admin.rs. -/
structure SystemMetrics where
  total_flights : Nat
  active_flights : Nat
  delayed_flights : Nat
  cancelled_flights : Nat
  total_aircraft : Nat
  active_aircraft : Nat
  aircraft_in_maintenance : Nat
  total_bookings : Nat
  revenue_today : ℚ
  revenue_month : ℚ
  average_load_factor : ℚ
  last_updated : Int
deriving DecidableEq, Repr

/-- `AdminPanel` from src/modules/admin.rs. -/
structure AdminPanel where
  current_admin : Option AdminUser
  audit_log : List AdminAction
  pricing_rules : List PricingRule
  system_metrics : SystemMetrics
deriving DecidableEq, Repr

/-- `AdminPanel::get_applicable_multiplier` (admin.rs): filter by active
flag, route match and time match, then multiplicatively fold the remaining
multipliers starting from 1.0. -/
def AdminPanel.get_applicable_multiplier (p : AdminPanel) (origin destination : List Char) (hour : Nat) : ℚ :=
  ((((p.pricing_rules.filter (fun r => r.is_active)).filter
      (fun r => r.applies_to_route origin destination)).filter
      (fun r => r.applies_to_time hour)).map
      (fun r => r.multiplier)).foldl (fun acc m => acc * m) 1

/-- `AdminPanel::is_authenticated` (admin.rs). -/
def AdminPanel.is_authenticated (p : AdminPanel) : Bool :=
  p.current_admin.isSome

/-- `AdminPanel::log_action` (admin.rs): append an `AdminAction` to the
audit log; the fresh id and timestamp are passed in explicitly. -/
def AdminPanel.log_action (p : AdminPanel) (actionId : Nat) (now : Int)
    (admin_id : Nat) (action_type description : List Char)
    (affected_entity_id : Option Nat) (old_value new_value : Option (List Char)) : AdminPanel :=
  { p with audit_log := p.audit_log ++
      [{ id := actionId, admin_id := admin_id, action_type := action_type,
         description := description, timestamp := now,
         affected_entity_id := affected_entity_id,
         old_value := old_value, new_value := new_value }] }

/- Claim C1 and C5 theorems follow. -/

/-- The rule filter of the pricing engine, written as a single predicate:
active, route-matching and time-matching. -/
def ruleMatches (origin destination : List Char) (hour : Nat) (r : PricingRule) : Bool :=
  r.is_active && r.applies_to_route origin destination && r.applies_to_time hour

theorem filter_filter_matches (origin destination : List Char) (hour : Nat)
    (rules : List PricingRule) :
    (((rules.filter (fun r => r.is_active)).filter
        (fun r => r.applies_to_route origin destination)).filter
        (fun r => r.applies_to_time hour)) =
      rules.filter (ruleMatches origin destination hour) := by
  rw [List.filter_filter, List.filter_filter]
  apply List.filter_congr
  intro a _
  cases h1 : a.is_active <;>
    cases h2 : a.applies_to_route origin destination <;>
      cases h3 : a.applies_to_time hour <;>
        simp [ruleMatches, h1, h2, h3]

/-- C1: `get_applicable_multiplier` equals the product of the multipliers of
exactly those rules that are active, match the route, and match the hour
(folded from accumulator 1); when no rule matches it is exactly 1. -/
theorem get_applicable_multiplier_spec (p : AdminPanel) (origin destination : List Char) (hour : Nat) :
    p.get_applicable_multiplier origin destination hour =
      ((p.pricing_rules.filter (ruleMatches origin destination hour)).map
        (fun r => r.multiplier)).prod ∧
    (p.pricing_rules.filter (ruleMatches origin destination hour) = [] →
      p.get_applicable_multiplier origin destination hour = 1) := by
  constructor
  · rw [AdminPanel.get_applicable_multiplier, filter_filter_matches,
      List.prod_eq_foldl]
  · intro h
    rw [AdminPanel.get_applicable_multiplier, filter_filter_matches, h]
    rfl

/-- Closed instance of C1: with one matching and one non-matching rule the
multiplier is the matching rule's value, and with no matching rules it is 1. -/
theorem get_applicable_multiplier_spec_witness :
    ({ current_admin := none, audit_log := [], system_metrics :=
        { total_flights := 0, active_flights := 0, delayed_flights := 0,
          cancelled_flights := 0, total_aircraft := 0, active_aircraft := 0,
          aircraft_in_maintenance := 0, total_bookings := 0,
          revenue_today := 0, revenue_month := 0, average_load_factor := 0,
          last_updated := 0 },
       pricing_rules := [
        { id := 1, rule_name := "Peak Hours Premium".data, route_pattern := none,
          time_period := some (6, 9), multiplier := 13/10, is_active := true,
          created_by := 0, created_date := 0 },
        { id := 2, rule_name := "Inactive".data, route_pattern := none,
          time_period := none, multiplier := 2, is_active := false,
          created_by := 0, created_date := 0 }] } : AdminPanel).get_applicable_multiplier
      "LAX".data "JFK".data 7 = 13/10 := by
  have h := get_applicable_multiplier_spec
    ({ current_admin := none, audit_log := [], system_metrics :=
        { total_flights := 0, active_flights := 0, delayed_flights := 0,
          cancelled_flights := 0, total_aircraft := 0, active_aircraft := 0,
          aircraft_in_maintenance := 0, total_bookings := 0,
          revenue_today := 0, revenue_month := 0, average_load_factor := 0,
          last_updated := 0 },
       pricing_rules := [
        { id := 1, rule_name := "Peak Hours Premium".data, route_pattern := none,
          time_period := some (6, 9), multiplier := 13/10, is_active := true,
          created_by := 0, created_date := 0 },
        { id := 2, rule_name := "Inactive".data, route_pattern := none,
          time_period := none, multiplier := 2, is_active := false,
          created_by := 0, created_date := 0 }] } : AdminPanel)
    "LAX".data "JFK".data 7
  rw [h.1]
  norm_num [ruleMatches, List.filter, PricingRule.applies_to_route,
    PricingRule.applies_to_time]

/-- Route matching as the specification phrases it: absent pattern matches
all; `*` at both ends means substring match of the trimmed middle against
the combined string; leading `*` means suffix match; trailing `*` means
prefix match; a `*` only in the middle matches nothing; otherwise exact
match. -/
def routeMatchesSpec (pat? : Option (List Char)) (origin destination : List Char) : Bool :=
  match pat? with
  | none => true
  | some p =>
      let route := origin ++ '-' :: destination
      if startsWithStar p && endsWithStar p then
        isSubstring (trimEndStars (trimStartStars p)) route
      else if startsWithStar p then
        (p.drop 1).isSuffixOf route
      else if endsWithStar p then
        (p.dropLast).isPrefixOf route
      else if p.contains '*' then
        false
      else
        route == p

theorem star_not_mem_of_contains_eq_false (p : List Char)
    (h : p.contains '*' = false) : '*' ∉ p := by
  simpa [List.contains] using h

theorem startsWithStar_eq_false_of_no_star (p : List Char)
    (h : p.contains '*' = false) : startsWithStar p = false := by
  have hmem := star_not_mem_of_contains_eq_false p h
  cases p with
  | nil => rfl
  | cons c cs =>
      simp only [startsWithStar, beq_eq_false_iff_ne, ne_eq]
      intro hc
      exact hmem (by simp [hc])

theorem endsWithStar_eq_false_of_no_star (p : List Char)
    (h : p.contains '*' = false) : endsWithStar p = false := by
  have hmem := star_not_mem_of_contains_eq_false p h
  unfold endsWithStar
  cases hl : p.getLast? with
  | none => rfl
  | some c =>
      have hc := List.mem_of_mem_getLast? hl
      simp only [beq_eq_false_iff_ne, ne_eq]
      intro he
      exact hmem (he ▸ hc)

/-- C5: the code's route matcher coincides with the specification's clause
list (`routeMatchesSpec`); a pattern with `*` only in the middle matches no
route; a rule's time match is exactly the inclusive range check, which for
a descending range such as (22,4) matches no hour. -/
theorem applies_to_route_time_spec (r : PricingRule) (origin destination : List Char) (hour : Nat) :
    r.applies_to_route origin destination = routeMatchesSpec r.route_pattern origin destination ∧
    (∀ p, r.route_pattern = some p → p.contains '*' = true →
      startsWithStar p = false → endsWithStar p = false →
      r.applies_to_route origin destination = false) ∧
    (r.time_period = none → r.applies_to_time hour = true) ∧
    (∀ s e, r.time_period = some (s, e) →
      (r.applies_to_time hour = true ↔ s ≤ hour ∧ hour ≤ e)) ∧
    (r.time_period = some (22, 4) → r.applies_to_time hour = false) := by
  refine ⟨?_, ?_, ?_, ?_, ?_⟩
  · unfold PricingRule.applies_to_route routeMatchesSpec
    cases hp : r.route_pattern with
    | none => rfl
    | some p =>
        by_cases hc : p.contains '*' = true
        · simp only [hc, if_true]
        · have hc' : p.contains '*' = false := by
            cases h : p.contains '*'
            · rfl
            · exact absurd h hc
          simp [hc', startsWithStar_eq_false_of_no_star p hc',
            endsWithStar_eq_false_of_no_star p hc']
  · intro p hp hc h1 h2
    have hc' : '*' ∈ p := by simpa [List.contains] using hc
    unfold PricingRule.applies_to_route
    simp [hp, hc', h1, h2]
  · intro h
    unfold PricingRule.applies_to_time
    simp [h]
  · intro s e h
    unfold PricingRule.applies_to_time
    simp [h]
  · intro h
    have hno : ¬ (22 ≤ hour ∧ hour ≤ 4) := by omega
    unfold PricingRule.applies_to_time
    simpa [h, Bool.and_eq_true] using hno

/-- Closed instance of C5: the pattern `"LAX-*"` prefix-matches the route
LAX→JFK per the spec clauses, a middle-star pattern `"LAX*JFK"` matches
nothing, and the hour range (22,4) matches no hour. -/
theorem applies_to_route_time_spec_witness :
    PricingRule.applies_to_route
      { id := 3, rule_name := "r".data, route_pattern := some ("LAX-*".data),
        time_period := some (22, 4), multiplier := 1, is_active := true,
        created_by := 0, created_date := 0 } "LAX".data "JFK".data =
      routeMatchesSpec (some ("LAX-*".data)) "LAX".data "JFK".data ∧
    PricingRule.applies_to_route
      { id := 4, rule_name := "r".data, route_pattern := some ("LAX*JFK".data),
        time_period := none, multiplier := 1, is_active := true,
        created_by := 0, created_date := 0 } "LAX".data "JFK".data = false ∧
    PricingRule.applies_to_time
      { id := 3, rule_name := "r".data, route_pattern := some ("LAX-*".data),
        time_period := some (22, 4), multiplier := 1, is_active := true,
        created_by := 0, created_date := 0 } 23 = false := by
  refine ⟨?_, ?_, ?_⟩
  · exact (applies_to_route_time_spec
      { id := 3, rule_name := "r".data, route_pattern := some ("LAX-*".data),
        time_period := some (22, 4), multiplier := 1, is_active := true,
        created_by := 0, created_date := 0 } "LAX".data "JFK".data 23).1
  · exact (applies_to_route_time_spec
      { id := 4, rule_name := "r".data, route_pattern := some ("LAX*JFK".data),
        time_period := none, multiplier := 1, is_active := true,
        created_by := 0, created_date := 0 } "LAX".data "JFK".data 23).2.1
      ("LAX*JFK".data) rfl (by decide) (by decide) (by decide)
  · exact (applies_to_route_time_spec
      { id := 3, rule_name := "r".data, route_pattern := some ("LAX-*".data),
        time_period := some (22, 4), multiplier := 1, is_active := true,
        created_by := 0, created_date := 0 } "LAX".data "JFK".data 23).2.2.2.2 rfl

/-- `BookingStatus` from src/modules/booking.rs. -/
inductive BookingStatus
  | Confirmed
  | CheckedIn
  | Boarded
  | Completed
  | Cancelled
  | NoShow
deriving DecidableEq, Repr

/-- `PassengerType` from src/modules/booking.rs. -/
inductive PassengerType
  | Adult
  | Child
  | Infant
  | Senior
deriving DecidableEq, Repr

/-- `Passenger` from src/modules/booking.rs. -/
structure Passenger where
  id : Nat
  first_name : List Char
  last_name : List Char
  email : List Char
  phone : List Char
  passport_number : Option (List Char)
  date_of_birth : List Char
  passenger_type : PassengerType
  special_requirements : List (List Char)
deriving DecidableEq, Repr

/-- `BookingPayment` from src/modules/booking.rs. -/
structure BookingPayment where
  total_amount : ℚ
  currency : List Char
  payment_method : List Char
  transaction_id : Nat
  payment_date : Int
deriving DecidableEq, Repr

/-- `SeatAssignment` from src/modules/booking.rs. -/
structure SeatAssignment where
  seat_number : List Char
  seat_class : SeatClass
  is_window : Bool
  is_aisle : Bool
  is_emergency_exit : Bool
deriving DecidableEq, Repr

/-- `Booking` from src/modules/booking.rs. -/
structure Booking where
  id : Nat
  ticket_number : List Char
  flight_id : Nat
  passenger : Passenger
  seat_assignment : Option SeatAssignment
  seat_class : SeatClass
  booking_date : Int
  status : BookingStatus
  payment : BookingPayment
  baggage_count : Nat
  special_services : List (List Char)
  check_in_time : Option Int
  boarding_time : Option Int
deriving DecidableEq, Repr

/-- Zero-padded six-digit decimal rendering of `n < 1000000`, as Rust's
`format!("{:06}", n)` produces for such `n`. -/
def pad6 (n : Nat) : List Char :=
  [Nat.digitChar (n / 100000 % 10), Nat.digitChar (n / 10000 % 10),
   Nat.digitChar (n / 1000 % 10), Nat.digitChar (n / 100 % 10),
   Nat.digitChar (n / 10 % 10), Nat.digitChar (n % 10)]

/-- `Booking::generate_ticket_number` (booking.rs): `"RIA"` followed by the
time-hash value reduced mod 1000000 and zero-padded to six digits. The hash
drawn from the local `rand` module (a `DefaultHasher` over the current time
in nanoseconds) enters as the explicit `seed`. -/
def generate_ticket_number (seed : Nat) : List Char :=
  "RIA".data ++ pad6 (seed % 1000000)

/-- `Booking::new` (booking.rs); the fresh UUIDs, the ticket seed and the
clock reading are explicit parameters. -/
def Booking.new (flight_id : Nat) (passenger : Passenger) (seat_class : SeatClass)
    (total_amount : ℚ) (payment_method : List Char)
    (now : Int) (bookingId ticketSeed txnId : Nat) : Booking :=
  { id := bookingId,
    ticket_number := generate_ticket_number ticketSeed,
    flight_id := flight_id,
    passenger := passenger,
    seat_assignment := none,
    seat_class := seat_class,
    booking_date := now,
    status := BookingStatus.Confirmed,
    payment := { total_amount := total_amount, currency := "USD".data,
                 payment_method := payment_method, transaction_id := txnId,
                 payment_date := now },
    baggage_count := 1,
    special_services := [],
    check_in_time := none,
    boarding_time := none }

/-- `Booking::cancel` (booking.rs): Confirmed or CheckedIn bookings become
Cancelled; Boarded/Completed and all other statuses fail. -/
def Booking.cancel (b : Booking) : Except (List Char) Booking :=
  match b.status with
  | BookingStatus.Confirmed => Except.ok { b with status := BookingStatus.Cancelled }
  | BookingStatus.CheckedIn => Except.ok { b with status := BookingStatus.Cancelled }
  | BookingStatus.Boarded =>
      Except.error ("Cannot cancel - flight already boarded or completed".data)
  | BookingStatus.Completed =>
      Except.error ("Cannot cancel - flight already boarded or completed".data)
  | _ => Except.error ("Booking already cancelled or invalid status".data)

/-- `AircraftStatus` from src/modules/aircraft.rs. -/
inductive AircraftStatus
  | Active
  | Maintenance
  | Retired
  | InFlight
deriving DecidableEq, Repr

/-- `Aircraft` from src/modules/aircraft.rs (performance and seat layout
fields that no claim touches are carried as plain data). -/
structure Aircraft where
  id : Nat
  registration : List Char
  model : List Char
  manufacturer : List Char
  year_manufactured : Nat
  status : AircraftStatus
  total_capacity : Nat
  baggage_capacity_kg : Nat
  max_cargo_weight_kg : Nat
  maintenance_hours : ℚ
  flight_hours : ℚ
deriving DecidableEq, Repr

/-- `Airport` from src/modules/airport.rs (static reference data; only the
code is consulted by the core). -/
structure Airport where
  id : Nat
  code : List Char
  name : List Char
  city : List Char
  country : List Char
deriving DecidableEq, Repr

/-- `AirportDatabase` from src/data/persistence.rs. -/
structure AirportDatabase where
  flights : List Flight
  aircraft : List Aircraft
  bookings : List Booking
  airports : List Airport
deriving DecidableEq, Repr

/-- `DataManager` from src/data/manager.rs (the persistence collaborator is
out of scope; the last-run timestamp drives the simulation cooldown). -/
structure DataManager where
  database : AirportDatabase
  admin_panel : AdminPanel
  last_simulation_update : Int
deriving DecidableEq, Repr

/-- Split a list around the first element satisfying `p`: returns the
(non-matching) elements before it, the element, and the rest. Models the
Rust idiom `iter().position(p)` followed by indexing, and
`iter_mut().find(p)` followed by in-place mutation. -/
def extractFirst (p : α → Bool) : List α → Option (List α × α × List α)
  | [] => none
  | x :: xs =>
      if p x then some ([], x, xs)
      else
        match extractFirst p xs with
        | none => none
        | some (pre, y, post) => some (x :: pre, y, post)

/-- Apply `g` to the first element satisfying `p`, leaving the list
unchanged when none matches; models `if let Some(x) = iter_mut().find(p)`. -/
def updateFirst (p : α → Bool) (g : α → α) : List α → List α
  | [] => []
  | x :: xs => if p x then g x :: xs else x :: updateFirst p g xs

/-- Restore one seat of the given class, as the cancellation path of
`DataManager::cancel_booking` (manager.rs) does on the matching flight. -/
def addSeatBack (c : SeatClass) (f : Flight) : Flight :=
  match c with
  | SeatClass.Economy =>
      { f with seat_availability := { f.seat_availability with economy := f.seat_availability.economy + 1 } }
  | SeatClass.Business =>
      { f with seat_availability := { f.seat_availability with business := f.seat_availability.business + 1 } }
  | SeatClass.FirstClass =>
      { f with seat_availability := { f.seat_availability with first_class := f.seat_availability.first_class + 1 } }

/-- `DataManager::create_booking` (manager.rs). Checks flight existence,
bookability and seat availability, prices the seat through the pricing
engine at the departure hour, reserves the seat, appends the booking, and
updates the metrics; every error path returns the state unchanged. -/
def DataManager.create_booking (dm : DataManager) (now : Int)
    (bookingId ticketSeed txnId : Nat)
    (flight_id : Nat) (passenger : Passenger) (seat_class : SeatClass) :
    Except (List Char) Nat × DataManager :=
  match extractFirst (fun f => f.id == flight_id) dm.database.flights with
  | none => (Except.error ("Flight not found".data), dm)
  | some (pre, f, post) =>
      if !(f.is_available_for_booking now) then
        (Except.error ("Flight is not available for booking".data), dm)
      else if f.get_available_seats seat_class == 0 then
        (Except.error ("No seats available in the selected class".data), dm)
      else
        let base_price := f.get_price seat_class
        let multiplier := dm.admin_panel.get_applicable_multiplier
          f.origin f.destination (hourOfTime f.departure_time)
        let final_price := base_price * multiplier
        let booking := Booking.new flight_id passenger seat_class final_price
          ("Credit Card".data) now bookingId ticketSeed txnId
        match f.book_seat now seat_class with
        | Except.error e => (Except.error e, dm)
        | Except.ok f' =>
            let new_bookings := dm.database.bookings ++ [booking]
            (Except.ok bookingId,
             { dm with
                 database := { dm.database with
                     flights := pre ++ f' :: post,
                     bookings := new_bookings },
                 admin_panel := { dm.admin_panel with
                     system_metrics := { dm.admin_panel.system_metrics with
                         total_bookings := new_bookings.length,
                         revenue_today := dm.admin_panel.system_metrics.revenue_today + final_price,
                         revenue_month := dm.admin_panel.system_metrics.revenue_month + final_price } } })

/-- `DataManager::cancel_booking` (manager.rs). Looks the booking up by
ticket number, cancels it, and restores one seat of its class on the first
flight with the booking's flight id, when such a flight exists. -/
def DataManager.cancel_booking (dm : DataManager) (ticket_number : List Char) :
    Except (List Char) Unit × DataManager :=
  match extractFirst (fun b => b.ticket_number == ticket_number) dm.database.bookings with
  | none => (Except.error ("Booking not found".data), dm)
  | some (pre, b, post) =>
      match b.cancel with
      | Except.error e => (Except.error e, dm)
      | Except.ok b' =>
          (Except.ok (),
           { dm with database := { dm.database with
               bookings := pre ++ b' :: post,
               flights := updateFirst (fun f => f.id == b.flight_id)
                 (addSeatBack b.seat_class) dm.database.flights } })

/-- `DataManager::set_flight_delay` (manager.rs). Requires an authenticated
admin with the flight-management capability; on success applies
`Flight::set_delay` and appends one audit-log entry with the actor, action
tag, description, flight id and before/after status strings. -/
def DataManager.set_flight_delay (dm : DataManager) (actionId : Nat) (now : Int)
    (flight_number : List Char) (delay_minutes : Int) :
    Except (List Char) Unit × DataManager :=
  if !dm.admin_panel.is_authenticated then
    (Except.error ("Admin authentication required".data), dm)
  else
    match dm.admin_panel.current_admin with
    | none => (Except.error ("Admin authentication required".data), dm)
    | some current_admin =>
        if !current_admin.can_manage_flights then
          (Except.error ("Insufficient permissions to manage flights".data), dm)
        else
          match extractFirst (fun f => f.flight_number == flight_number) dm.database.flights with
          | none => (Except.error ("Flight not found".data), dm)
          | some (pre, f, post) =>
              let old_status := f.get_status_display
              let f' := f.set_delay delay_minutes
              let new_status := f'.get_status_display
              (Except.ok (),
               { dm with
                   database := { dm.database with flights := pre ++ f' :: post },
                   admin_panel := (dm.admin_panel.log_action actionId now
                     current_admin.id ("SET_DELAY".data)
                     ("Set delay for flight ".data ++ flight_number)
                     (some f.id) (some old_status) (some new_status)) })

/-- `SystemMetrics::update_flight_metrics` (admin.rs). -/
def SystemMetrics.update_flight_metrics (m : SystemMetrics) (flights : List Flight) (now : Int) : SystemMetrics :=
  { m with
      total_flights := flights.length,
      active_flights := (flights.filter (fun f =>
        match f.status with
        | FlightStatus.OnTime => true
        | FlightStatus.Delayed _ => true
        | _ => false)).length,
      delayed_flights := (flights.filter (fun f =>
        match f.status with
        | FlightStatus.Delayed _ => true
        | _ => false)).length,
      cancelled_flights := (flights.filter (fun f =>
        match f.status with
        | FlightStatus.Cancelled => true
        | _ => false)).length,
      last_updated := now }

/-- `SystemMetrics::update_aircraft_metrics` (admin.rs). -/
def SystemMetrics.update_aircraft_metrics (m : SystemMetrics) (aircraft : List Aircraft) (now : Int) : SystemMetrics :=
  { m with
      total_aircraft := aircraft.length,
      active_aircraft := (aircraft.filter (fun a =>
        match a.status with
        | AircraftStatus.Active => true
        | AircraftStatus.InFlight => true
        | _ => false)).length,
      aircraft_in_maintenance := (aircraft.filter (fun a =>
        match a.status with
        | AircraftStatus.Maintenance => true
        | _ => false)).length,
      last_updated := now }

/-- One flight step of `DataManager::update_simulation` (manager.rs,
flight loop): given `now`, advance the flight status by wall-clock
proximity to departure and arrival. -/
def stepFlight (now : Int) (f : Flight) : Flight :=
  let time_to_departure := f.departure_time - now
  let time_since_departure := now - f.departure_time
  let time_to_arrival := f.arrival_time - now
  match f.status with
  | FlightStatus.OnTime =>
      if time_to_departure ≤ 60 * 30 ∧ time_to_departure > 0 then
        { f with status := FlightStatus.Boarding }
      else if time_since_departure ≥ 0 ∧ time_to_arrival > 0 then
        { f with status := FlightStatus.Departed }
      else if time_to_arrival ≤ 0 then
        { f with status := FlightStatus.Arrived }
      else f
  | FlightStatus.Delayed _ =>
      if time_to_departure ≤ 60 * 30 ∧ time_to_departure > 0 then
        { f with status := FlightStatus.Boarding }
      else if time_since_departure ≥ 0 ∧ time_to_arrival > 0 then
        { f with status := FlightStatus.Departed }
      else if time_to_arrival ≤ 0 then
        { f with status := FlightStatus.Arrived }
      else f
  | FlightStatus.Boarding =>
      if time_since_departure ≥ 0 then { f with status := FlightStatus.Departed } else f
  | FlightStatus.Departed =>
      if time_to_arrival ≤ 0 then { f with status := FlightStatus.Arrived } else f
  | _ => f

/-- The aircraft check of `DataManager::update_simulation` (manager.rs,
aircraft loop): does any flight referencing this aircraft sit in Boarding
or Departed state? The flight list passed in is the one already advanced
by the flight loop of the same tick. -/
def hasActiveFlight (flights : List Flight) (aircraft_id : Nat) : Bool :=
  flights.any (fun f => f.aircraft_id == aircraft_id &&
    (match f.status with
     | FlightStatus.Boarding => true
     | FlightStatus.Departed => true
     | _ => false))

/-- One aircraft step of `DataManager::update_simulation` (manager.rs,
aircraft loop). -/
def stepAircraft (flights : List Flight) (a : Aircraft) : Aircraft :=
  match a.status with
  | AircraftStatus.Active =>
      if hasActiveFlight flights a.id then { a with status := AircraftStatus.InFlight } else a
  | AircraftStatus.InFlight =>
      if !hasActiveFlight flights a.id then { a with status := AircraftStatus.Active } else a
  | _ => a

/-- `DataManager::update_simulation` (manager.rs). A call within 60 seconds
of the previous run is a no-op (early return before the timestamp update).
Otherwise every flight and then every aircraft is stepped; the Rust
`updates_made` flag records whether any status assignment ran, and since
every simulator assignment changes the status constructor it equals
"some flight or aircraft changed". When set, the aggregate metrics are
recomputed from the updated collections. -/
def DataManager.update_simulation (dm : DataManager) (now : Int) : DataManager :=
  if now - dm.last_simulation_update < 60 then dm
  else
    let flights := dm.database.flights.map (stepFlight now)
    let aircraft := dm.database.aircraft.map (stepAircraft flights)
    let updates_made : Bool :=
      !(decide (flights = dm.database.flights)) || !(decide (aircraft = dm.database.aircraft))
    let metrics :=
      if updates_made then
        (dm.admin_panel.system_metrics.update_flight_metrics flights now).update_aircraft_metrics aircraft now
      else dm.admin_panel.system_metrics
    { dm with
        database := { dm.database with flights := flights, aircraft := aircraft },
        admin_panel := { dm.admin_panel with system_metrics := metrics },
        last_simulation_update := now }

theorem extractFirst_eq_some {α : Type} (p : α → Bool) (l : List α)
    (pre : List α) (x : α) (post : List α)
    (h : extractFirst p l = some (pre, x, post)) :
    l = pre ++ x :: post ∧ p x = true ∧ ∀ a ∈ pre, p a = false := by
  induction l generalizing pre x post with
  | nil => simp [extractFirst] at h
  | cons y ys ih =>
      by_cases hy : p y = true
      · simp [extractFirst, hy] at h
        obtain ⟨rfl, rfl, rfl⟩ := h
        exact ⟨rfl, hy, by simp⟩
      · have hy' : p y = false := by
          cases hpy : p y
          · rfl
          · exact absurd hpy hy
        simp only [extractFirst, hy', Bool.false_eq_true, if_false] at h
        cases hrec : extractFirst p ys with
        | none => rw [hrec] at h; simp at h
        | some res =>
            obtain ⟨pre', x', post'⟩ := res
            rw [hrec] at h
            simp only [Option.some.injEq, Prod.mk.injEq] at h
            obtain ⟨h1, h2, h3⟩ := h
            obtain ⟨he, hx, hp⟩ := ih pre' x' post' hrec
            subst h1
            subst h2
            subst h3
            refine ⟨by simp [he], hx, ?_⟩
            intro a ha
            rcases List.mem_cons.mp ha with rfl | ha'
            · exact hy'
            · exact hp a ha'

theorem extractFirst_eq_none {α : Type} (p : α → Bool) (l : List α)
    (h : ∀ a ∈ l, p a = false) : extractFirst p l = none := by
  induction l with
  | nil => rfl
  | cons y ys ih =>
      have hy := h y (by simp)
      simp [extractFirst, hy]
      rw [ih (fun a ha => h a (by simp [ha]))]

theorem extractFirst_append_last {α : Type} (p : α → Bool) (l : List α) (x : α)
    (hl : ∀ a ∈ l, p a = false) (hx : p x = true) :
    extractFirst p (l ++ [x]) = some (l, x, []) := by
  induction l with
  | nil => simp [extractFirst, hx]
  | cons y ys ih =>
      have hy := hl y (by simp)
      simp only [List.cons_append, extractFirst, hy, Bool.false_eq_true, if_false,
        List.append_eq]
      rw [ih (fun a ha => hl a (by simp [ha]))]

theorem updateFirst_append_of_none {α : Type} (p : α → Bool) (g : α → α)
    (l₁ l₂ : List α) (h : ∀ a ∈ l₁, p a = false) :
    updateFirst p g (l₁ ++ l₂) = l₁ ++ updateFirst p g l₂ := by
  induction l₁ with
  | nil => rfl
  | cons y ys ih =>
      have hy := h y (by simp)
      simp only [List.cons_append, updateFirst, hy, Bool.false_eq_true, if_false,
        List.append_eq]
      rw [ih (fun a ha => h a (by simp [ha]))]

theorem updateFirst_cons_pos {α : Type} (p : α → Bool) (g : α → α)
    (x : α) (xs : List α) (hx : p x = true) :
    updateFirst p g (x :: xs) = g x :: xs := by
  simp [updateFirst, hx]

theorem updateFirst_id_of_none {α : Type} (p : α → Bool) (g : α → α)
    (l : List α) (h : ∀ a ∈ l, p a = false) :
    updateFirst p g l = l := by
  induction l with
  | nil => rfl
  | cons y ys ih =>
      have hy := h y (by simp)
      simp only [updateFirst, hy, Bool.false_eq_true, if_false]
      rw [ih (fun a ha => h a (by simp [ha]))]

/-- Take one seat of the given class: the successful outcome of
`Flight::book_seat`. -/
def decSeat (c : SeatClass) (f : Flight) : Flight :=
  match c with
  | SeatClass.Economy =>
      { f with seat_availability := { f.seat_availability with economy := f.seat_availability.economy - 1 } }
  | SeatClass.Business =>
      { f with seat_availability := { f.seat_availability with business := f.seat_availability.business - 1 } }
  | SeatClass.FirstClass =>
      { f with seat_availability := { f.seat_availability with first_class := f.seat_availability.first_class - 1 } }

theorem book_seat_ok (f : Flight) (now : Int) (c : SeatClass)
    (hav : f.is_available_for_booking now = true)
    (hpos : 0 < f.get_available_seats c) :
    f.book_seat now c = Except.ok (decSeat c f) := by
  unfold Flight.book_seat
  rw [hav]
  cases c <;> simp [decSeat, Flight.get_available_seats] at hpos ⊢ <;> omega

theorem addSeatBack_decSeat (c : SeatClass) (f : Flight)
    (hpos : 0 < f.get_available_seats c) :
    addSeatBack c (decSeat c f) = f := by
  obtain ⟨i, fn, al, o, d, dep, arr, st, aid, gt, sa, pr, tc, ba⟩ := f
  obtain ⟨e, b, fc⟩ := sa
  cases c <;>
    simp [addSeatBack, decSeat, Flight.get_available_seats] at hpos ⊢ <;>
      omega

theorem decSeat_seats (c : SeatClass) (f : Flight) :
    (decSeat c f).get_available_seats c = f.get_available_seats c - 1 := by
  cases c <;> rfl

theorem decSeat_id (c : SeatClass) (f : Flight) : (decSeat c f).id = f.id := by
  cases c <;> rfl

theorem create_booking_not_found (dm : DataManager) (now : Int)
    (bookingId ticketSeed txnId : Nat) (flight_id : Nat)
    (passenger : Passenger) (seat_class : SeatClass)
    (hex : extractFirst (fun f => f.id == flight_id) dm.database.flights = none) :
    dm.create_booking now bookingId ticketSeed txnId flight_id passenger seat_class =
      (Except.error ("Flight not found".data), dm) := by
  unfold DataManager.create_booking
  rw [hex]

theorem create_booking_ok (dm : DataManager) (now : Int)
    (bookingId ticketSeed txnId : Nat) (flight_id : Nat)
    (passenger : Passenger) (seat_class : SeatClass)
    (pre : List Flight) (f : Flight) (post : List Flight)
    (hex : extractFirst (fun g => g.id == flight_id) dm.database.flights = some (pre, f, post))
    (hav : f.is_available_for_booking now = true)
    (hpos : 0 < f.get_available_seats seat_class) :
    dm.create_booking now bookingId ticketSeed txnId flight_id passenger seat_class =
      (Except.ok bookingId,
       { dm with
           database := { dm.database with
               flights := pre ++ decSeat seat_class f :: post,
               bookings := dm.database.bookings ++
                 [Booking.new flight_id passenger seat_class
                   (f.get_price seat_class * dm.admin_panel.get_applicable_multiplier
                     f.origin f.destination (hourOfTime f.departure_time))
                   ("Credit Card".data) now bookingId ticketSeed txnId] },
           admin_panel := { dm.admin_panel with
               system_metrics := { dm.admin_panel.system_metrics with
                   total_bookings := dm.database.bookings.length + 1,
                   revenue_today := dm.admin_panel.system_metrics.revenue_today +
                     f.get_price seat_class * dm.admin_panel.get_applicable_multiplier
                       f.origin f.destination (hourOfTime f.departure_time),
                   revenue_month := dm.admin_panel.system_metrics.revenue_month +
                     f.get_price seat_class * dm.admin_panel.get_applicable_multiplier
                       f.origin f.destination (hourOfTime f.departure_time) } } }) := by
  have hz : (f.get_available_seats seat_class == 0) = false := by
    simp only [beq_eq_false_iff_ne, ne_eq]
    omega
  unfold DataManager.create_booking
  rw [hex]
  simp only [hav, Bool.not_true, Bool.false_eq_true, if_false, hz,
    book_seat_ok f now seat_class hav hpos, List.length_append,
    List.length_cons, List.length_nil]

theorem create_booking_error_unchanged (dm : DataManager) (now : Int)
    (bookingId ticketSeed txnId : Nat) (flight_id : Nat)
    (passenger : Passenger) (seat_class : SeatClass) (e : List Char)
    (dm' : DataManager)
    (h : dm.create_booking now bookingId ticketSeed txnId flight_id passenger seat_class =
      (Except.error e, dm')) :
    dm' = dm := by
  unfold DataManager.create_booking at h
  cases hex : extractFirst (fun f => f.id == flight_id) dm.database.flights with
  | none =>
      simp only [hex] at h
      exact (congrArg Prod.snd h).symm
  | some res =>
      obtain ⟨pre, f, post⟩ := res
      simp only [hex] at h
      by_cases hav : f.is_available_for_booking now = true
      · simp only [hav, Bool.not_true, Bool.false_eq_true, if_false] at h
        by_cases hz : (f.get_available_seats seat_class == 0) = true
        · rw [if_pos hz] at h
          exact (congrArg Prod.snd h).symm
        · have hz' : (f.get_available_seats seat_class == 0) = false := by
            cases hq : f.get_available_seats seat_class == 0
            · rfl
            · exact absurd hq hz
          simp only [hz', Bool.false_eq_true, if_false] at h
          cases hb : f.book_seat now seat_class with
          | error e2 =>
              simp only [hb] at h
              exact (congrArg Prod.snd h).symm
          | ok f2 =>
              simp only [hb] at h
              exact absurd (congrArg Prod.fst h) (by simp)
      · have hav' : f.is_available_for_booking now = false := by
          cases hq : f.is_available_for_booking now
          · rfl
          · exact absurd hq hav
        simp only [hav', Bool.not_false, if_true] at h
        exact (congrArg Prod.snd h).symm

theorem cancel_booking_not_found (dm : DataManager) (t : List Char)
    (h : ∀ b ∈ dm.database.bookings, (b.ticket_number == t) = false) :
    dm.cancel_booking t = (Except.error ("Booking not found".data), dm) := by
  unfold DataManager.cancel_booking
  rw [extractFirst_eq_none _ _ h]

theorem cancel_booking_found (dm : DataManager) (t : List Char)
    (pre : List Booking) (b : Booking) (post : List Booking)
    (hex : extractFirst (fun b2 => b2.ticket_number == t) dm.database.bookings =
      some (pre, b, post)) :
    dm.cancel_booking t =
      (match b.cancel with
       | Except.error e => (Except.error e, dm)
       | Except.ok b' =>
           (Except.ok (),
            { dm with database := { dm.database with
                bookings := pre ++ b' :: post,
                flights := updateFirst (fun f => f.id == b.flight_id)
                  (addSeatBack b.seat_class) dm.database.flights } })) := by
  unfold DataManager.cancel_booking
  simp only [hex]

/-- Bookkeeping for the witness instances: an empty metrics record. -/
def sampleMetrics : SystemMetrics :=
  { total_flights := 0, active_flights := 0, delayed_flights := 0,
    cancelled_flights := 0, total_aircraft := 0, active_aircraft := 0,
    aircraft_in_maintenance := 0, total_bookings := 0,
    revenue_today := 0, revenue_month := 0, average_load_factor := 0,
    last_updated := 0 }

/-- A concrete bookable flight (departure at hour 7) for the witness
instances. -/
def sampleFlight : Flight :=
  { id := 1, flight_number := "RIA101".data, airline := "Rust International Airlines".data,
    origin := "LAX".data, destination := "JFK".data,
    departure_time := 25200, arrival_time := 36000,
    status := FlightStatus.OnTime, aircraft_id := 7, gate := none,
    seat_availability := { economy := 10, business := 5, first_class := 2 },
    pricing := { economy := 29999/100, business := 89999/100,
                 first_class := 199999/100, dynamic_multiplier := 1 },
    total_capacity := 17,
    baggage_allowance := [(SeatClass.Economy, 23), (SeatClass.Business, 32),
      (SeatClass.FirstClass, 46)] }

/-- A concrete passenger for the witness instances. -/
def samplePassenger : Passenger :=
  { id := 50, first_name := "Ada".data, last_name := "Lovelace".data,
    email := "ada@example.com".data, phone := "555-0100".data,
    passport_number := none, date_of_birth := "1815-12-10".data,
    passenger_type := PassengerType.Adult, special_requirements := [] }

/-- A concrete data-manager state with one flight and no bookings. -/
def sampleDM : DataManager :=
  { database := { flights := [sampleFlight], aircraft := [], bookings := [],
                  airports := [] },
    admin_panel := { current_admin := none, audit_log := [], pricing_rules := [],
                     system_metrics := sampleMetrics },
    last_simulation_update := 0 }

/-- C2: `create_booking` fails on an unknown flight id, an unbookable
flight, or an empty seat class, and every failure leaves the state
unchanged; on success it prices the seat as the flight's per-class price
times the applicable pricing multiplier at the departure hour, decrements
the matching seat counter by one, appends exactly the one new booking,
returns its id, and bumps the booking count and both revenue counters by
the final price. -/
theorem create_booking_spec (dm : DataManager) (now : Int)
    (bookingId ticketSeed txnId : Nat) (flight_id : Nat)
    (passenger : Passenger) (seat_class : SeatClass) :
    (extractFirst (fun f => f.id == flight_id) dm.database.flights = none →
      dm.create_booking now bookingId ticketSeed txnId flight_id passenger seat_class =
        (Except.error ("Flight not found".data), dm)) ∧
    (∀ e dm', dm.create_booking now bookingId ticketSeed txnId flight_id passenger seat_class =
        (Except.error e, dm') → dm' = dm) ∧
    (∀ pre f post,
      extractFirst (fun g => g.id == flight_id) dm.database.flights = some (pre, f, post) →
      (f.is_available_for_booking now = false →
        dm.create_booking now bookingId ticketSeed txnId flight_id passenger seat_class =
          (Except.error ("Flight is not available for booking".data), dm)) ∧
      (f.is_available_for_booking now = true → f.get_available_seats seat_class = 0 →
        dm.create_booking now bookingId ticketSeed txnId flight_id passenger seat_class =
          (Except.error ("No seats available in the selected class".data), dm)) ∧
      (f.is_available_for_booking now = true → 0 < f.get_available_seats seat_class →
        dm.create_booking now bookingId ticketSeed txnId flight_id passenger seat_class =
          (Except.ok bookingId,
           { dm with
               database := { dm.database with
                   flights := pre ++ decSeat seat_class f :: post,
                   bookings := dm.database.bookings ++
                     [Booking.new flight_id passenger seat_class
                       (f.get_price seat_class * dm.admin_panel.get_applicable_multiplier
                         f.origin f.destination (hourOfTime f.departure_time))
                       ("Credit Card".data) now bookingId ticketSeed txnId] },
               admin_panel := { dm.admin_panel with
                   system_metrics := { dm.admin_panel.system_metrics with
                       total_bookings := dm.database.bookings.length + 1,
                       revenue_today := dm.admin_panel.system_metrics.revenue_today +
                         f.get_price seat_class * dm.admin_panel.get_applicable_multiplier
                           f.origin f.destination (hourOfTime f.departure_time),
                       revenue_month := dm.admin_panel.system_metrics.revenue_month +
                         f.get_price seat_class * dm.admin_panel.get_applicable_multiplier
                           f.origin f.destination (hourOfTime f.departure_time) } } }))) := by
  refine ⟨?_, ?_, ?_⟩
  · intro hex
    exact create_booking_not_found dm now bookingId ticketSeed txnId flight_id
      passenger seat_class hex
  · intro e dm' h
    exact create_booking_error_unchanged dm now bookingId ticketSeed txnId
      flight_id passenger seat_class e dm' h
  · intro pre f post hex
    refine ⟨?_, ?_, ?_⟩
    · intro hav
      unfold DataManager.create_booking
      simp only [hex, hav, Bool.not_false, if_true]
    · intro hav hz
      unfold DataManager.create_booking
      simp only [hex, hav, Bool.not_true, Bool.false_eq_true, if_false]
      rw [if_pos (by simp [hz])]
    · intro hav hpos
      exact create_booking_ok dm now bookingId ticketSeed txnId flight_id
        passenger seat_class pre f post hex hav hpos

/-- Closed instance of C2: on the sample state the booking succeeds and
returns the supplied fresh id. -/
theorem create_booking_spec_witness :
    (sampleDM.create_booking 0 100 0 200 1 samplePassenger SeatClass.Economy).1 =
      Except.ok 100 := by
  have h := ((create_booking_spec sampleDM 0 100 0 200 1 samplePassenger
      SeatClass.Economy).2.2 [] sampleFlight [] rfl).2.2 rfl (by decide)
  rw [h]

/-- C3: with N available seats in a class, creating a booking leaves N-1;
cancelling it by ticket number restores the flight exactly (so the counter
is back to N); a second cancel of the now-Cancelled ticket fails and
changes nothing; cancelling an unknown ticket or a Boarded/Completed
booking fails with the state unchanged. -/
theorem booking_round_trip (dm : DataManager) (now : Int)
    (bookingId ticketSeed txnId : Nat) (flight_id : Nat)
    (passenger : Passenger) (c : SeatClass)
    (pre : List Flight) (f : Flight) (post : List Flight)
    (hex : extractFirst (fun g => g.id == flight_id) dm.database.flights = some (pre, f, post))
    (hav : f.is_available_for_booking now = true)
    (hpos : 0 < f.get_available_seats c)
    (hfresh : ∀ b ∈ dm.database.bookings,
      (b.ticket_number == generate_ticket_number ticketSeed) = false) :
    (dm.create_booking now bookingId ticketSeed txnId flight_id passenger c).2.database.flights =
        pre ++ decSeat c f :: post ∧
    (decSeat c f).get_available_seats c = f.get_available_seats c - 1 ∧
    ((dm.create_booking now bookingId ticketSeed txnId flight_id passenger c).2.cancel_booking
        (generate_ticket_number ticketSeed)).1 = Except.ok () ∧
    ((dm.create_booking now bookingId ticketSeed txnId flight_id passenger c).2.cancel_booking
        (generate_ticket_number ticketSeed)).2.database.flights = pre ++ f :: post ∧
    (((dm.create_booking now bookingId ticketSeed txnId flight_id passenger c).2.cancel_booking
        (generate_ticket_number ticketSeed)).2.cancel_booking
        (generate_ticket_number ticketSeed)) =
      (Except.error ("Booking already cancelled or invalid status".data),
       ((dm.create_booking now bookingId ticketSeed txnId flight_id passenger c).2.cancel_booking
        (generate_ticket_number ticketSeed)).2) ∧
    (∀ t, (∀ b ∈ dm.database.bookings, (b.ticket_number == t) = false) →
      dm.cancel_booking t = (Except.error ("Booking not found".data), dm)) ∧
    (∀ t pre2 b post2,
      extractFirst (fun b2 => b2.ticket_number == t) dm.database.bookings = some (pre2, b, post2) →
      (b.status = BookingStatus.Boarded ∨ b.status = BookingStatus.Completed) →
      dm.cancel_booking t =
        (Except.error ("Cannot cancel - flight already boarded or completed".data), dm)) := by
  obtain ⟨hsplit, hpf, hpre⟩ := extractFirst_eq_some _ _ _ _ _ hex
  have hcreate := create_booking_ok dm now bookingId ticketSeed txnId flight_id
    passenger c pre f post hex hav hpos
  rw [hcreate]
  set newB := Booking.new flight_id passenger c
    (f.get_price c * dm.admin_panel.get_applicable_multiplier
      f.origin f.destination (hourOfTime f.departure_time))
    ("Credit Card".data) now bookingId ticketSeed txnId with hnewB
  have htn : (newB.ticket_number == generate_ticket_number ticketSeed) = true := by
    simp [hnewB, Booking.new]
  have hexb : extractFirst (fun b2 => b2.ticket_number == generate_ticket_number ticketSeed)
      (dm.database.bookings ++ [newB]) =
      some (dm.database.bookings, newB, []) :=
    extractFirst_append_last _ _ _ hfresh htn
  have hflights : updateFirst (fun g => g.id == newB.flight_id)
      (addSeatBack newB.seat_class) (pre ++ decSeat c f :: post) = pre ++ f :: post := by
    have hid : ((decSeat c f).id == newB.flight_id) = true := by
      rw [decSeat_id]
      simpa [hnewB, Booking.new] using hpf
    have hpre' : ∀ a ∈ pre, (a.id == newB.flight_id) = false := by
      intro a ha
      simpa [hnewB, Booking.new] using hpre a ha
    rw [updateFirst_append_of_none _ _ _ _ hpre',
      updateFirst_cons_pos (fun a => a.id == newB.flight_id)
        (addSeatBack newB.seat_class) (decSeat c f) post hid]
    have : addSeatBack newB.seat_class (decSeat c f) = f := by
      have hcl : newB.seat_class = c := by simp [hnewB, Booking.new]
      rw [hcl]
      exact addSeatBack_decSeat c f hpos
    rw [this]
  have hcanc : newB.cancel = Except.ok { newB with status := BookingStatus.Cancelled } := by
    rfl
  have hcancel1 :
      ({ dm with
           database := { dm.database with
               flights := pre ++ decSeat c f :: post,
               bookings := dm.database.bookings ++ [newB] },
           admin_panel := { dm.admin_panel with
               system_metrics := { dm.admin_panel.system_metrics with
                   total_bookings := dm.database.bookings.length + 1,
                   revenue_today := dm.admin_panel.system_metrics.revenue_today +
                     f.get_price c * dm.admin_panel.get_applicable_multiplier
                       f.origin f.destination (hourOfTime f.departure_time),
                   revenue_month := dm.admin_panel.system_metrics.revenue_month +
                     f.get_price c * dm.admin_panel.get_applicable_multiplier
                       f.origin f.destination (hourOfTime f.departure_time) } } } :
        DataManager).cancel_booking (generate_ticket_number ticketSeed) =
      (Except.ok (),
       { dm with
           database := { dm.database with
               flights := pre ++ f :: post,
               bookings := dm.database.bookings ++
                 [{ newB with status := BookingStatus.Cancelled }] },
           admin_panel := { dm.admin_panel with
               system_metrics := { dm.admin_panel.system_metrics with
                   total_bookings := dm.database.bookings.length + 1,
                   revenue_today := dm.admin_panel.system_metrics.revenue_today +
                     f.get_price c * dm.admin_panel.get_applicable_multiplier
                       f.origin f.destination (hourOfTime f.departure_time),
                   revenue_month := dm.admin_panel.system_metrics.revenue_month +
                     f.get_price c * dm.admin_panel.get_applicable_multiplier
                       f.origin f.destination (hourOfTime f.departure_time) } } }) := by
    rw [cancel_booking_found _ _ _ _ _ hexb]
    simp only [hcanc]
    rw [show ({ newB with status := BookingStatus.Cancelled } : Booking).flight_id =
      newB.flight_id from rfl] at hflights ⊢
    simp only [hflights]
  rw [hcancel1]
  have htn' : (({ newB with status := BookingStatus.Cancelled } : Booking).ticket_number ==
      generate_ticket_number ticketSeed) = true := htn
  have hexb2 : extractFirst (fun b2 => b2.ticket_number == generate_ticket_number ticketSeed)
      (dm.database.bookings ++ [{ newB with status := BookingStatus.Cancelled }]) =
      some (dm.database.bookings, { newB with status := BookingStatus.Cancelled }, []) :=
    extractFirst_append_last _ _ _ hfresh htn'
  have hcanc2 : ({ newB with status := BookingStatus.Cancelled } : Booking).cancel =
      Except.error ("Booking already cancelled or invalid status".data) := rfl
  refine ⟨rfl, decSeat_seats c f, rfl, rfl, ?_, ?_, ?_⟩
  · rw [cancel_booking_found _ _ _ _ _ hexb2]
    simp only [hcanc2]
  · intro t hft
    exact cancel_booking_not_found dm t hft
  · intro t pre2 b post2 hexb3 hst
    rw [cancel_booking_found _ _ _ _ _ hexb3]
    rcases hst with hb | hb <;>
      simp only [Booking.cancel, hb]

/-- Closed instance of C3: on the sample state, creating then cancelling
the booking succeeds. -/
theorem booking_round_trip_witness :
    ((sampleDM.create_booking 0 101 0 201 1 samplePassenger SeatClass.Economy).2.cancel_booking
        (generate_ticket_number 0)).1 = Except.ok () := by
  exact (booking_round_trip sampleDM 0 101 0 201 1 samplePassenger SeatClass.Economy
    [] sampleFlight [] rfl rfl (by decide) (by intro b hb; cases hb)).2.2.1

/-- C10: cancelling a Confirmed or CheckedIn booking whose flight id matches
no flight in the dataset still succeeds: the booking becomes Cancelled and
the flight list (hence every seat counter) is unchanged. -/
theorem cancel_booking_dangling_flight (dm : DataManager) (t : List Char)
    (pre : List Booking) (b : Booking) (post : List Booking)
    (hex : extractFirst (fun b2 => b2.ticket_number == t) dm.database.bookings =
      some (pre, b, post))
    (hst : b.status = BookingStatus.Confirmed ∨ b.status = BookingStatus.CheckedIn)
    (hno : ∀ f ∈ dm.database.flights, (f.id == b.flight_id) = false) :
    dm.cancel_booking t =
      (Except.ok (),
       { dm with database := { dm.database with
           bookings := pre ++ { b with status := BookingStatus.Cancelled } :: post,
           flights := dm.database.flights } }) := by
  rw [cancel_booking_found _ _ _ _ _ hex]
  have hcanc : b.cancel = Except.ok { b with status := BookingStatus.Cancelled } := by
    rcases hst with hb | hb <;> simp only [Booking.cancel, hb]
  simp only [hcanc]
  rw [updateFirst_id_of_none _ _ _ hno]

/-- A booking that references the nonexistent flight id 99, for the C10
witness. -/
def sampleBooking : Booking :=
  Booking.new 99 samplePassenger SeatClass.Economy 100 ("Credit Card".data) 0 300 5 301

/-- The sample state carrying only the dangling booking. -/
def sampleDMDangling : DataManager :=
  { sampleDM with database := { sampleDM.database with bookings := [sampleBooking] } }

/-- Closed instance of C10: the dangling-flight cancellation succeeds and
leaves the flight list unchanged. -/
theorem cancel_booking_dangling_flight_witness :
    sampleDMDangling.cancel_booking (generate_ticket_number 5) =
      (Except.ok (),
       { sampleDMDangling with database := { sampleDMDangling.database with
           bookings := [{ sampleBooking with status := BookingStatus.Cancelled }],
           flights := sampleDMDangling.database.flights } }) := by
  exact cancel_booking_dangling_flight sampleDMDangling (generate_ticket_number 5)
    [] sampleBooking [] rfl (Or.inl rfl)
    (by
      intro f hf
      have hfl : sampleDMDangling.database.flights = [sampleFlight] := rfl
      rw [hfl, List.mem_singleton] at hf
      subst hf
      rfl)

/-- C7: `set_flight_delay` fails when no admin session exists or when the
current admin lacks the flight-management capability, leaving the whole
state (in particular every flight and the audit log) unchanged; every error
outcome leaves the state unchanged; on success exactly one AdminAction
recording the actor id, the action tag, the description, the affected
flight id and the old/new status strings is appended to the audit log. -/
theorem set_flight_delay_spec (dm : DataManager) (actionId : Nat) (now : Int)
    (flight_number : List Char) (delay_minutes : Int) :
    (dm.admin_panel.current_admin = none →
      dm.set_flight_delay actionId now flight_number delay_minutes =
        (Except.error ("Admin authentication required".data), dm)) ∧
    (∀ adm, dm.admin_panel.current_admin = some adm → adm.can_manage_flights = false →
      dm.set_flight_delay actionId now flight_number delay_minutes =
        (Except.error ("Insufficient permissions to manage flights".data), dm)) ∧
    (∀ e dm', dm.set_flight_delay actionId now flight_number delay_minutes =
        (Except.error e, dm') → dm' = dm) ∧
    (∀ adm pre f post, dm.admin_panel.current_admin = some adm →
      adm.can_manage_flights = true →
      extractFirst (fun g => g.flight_number == flight_number) dm.database.flights =
        some (pre, f, post) →
      dm.set_flight_delay actionId now flight_number delay_minutes =
        (Except.ok (),
         { dm with
             database := { dm.database with
                 flights := pre ++ f.set_delay delay_minutes :: post },
             admin_panel := { dm.admin_panel with
                 audit_log := dm.admin_panel.audit_log ++
                   [{ id := actionId, admin_id := adm.id,
                      action_type := "SET_DELAY".data,
                      description := "Set delay for flight ".data ++ flight_number,
                      timestamp := now, affected_entity_id := some f.id,
                      old_value := some f.get_status_display,
                      new_value := some (f.set_delay delay_minutes).get_status_display }] } })) := by
  refine ⟨?_, ?_, ?_, ?_⟩
  · intro h
    unfold DataManager.set_flight_delay AdminPanel.is_authenticated
    rw [h]
    rfl
  · intro adm h hcap
    unfold DataManager.set_flight_delay AdminPanel.is_authenticated
    rw [h]
    simp only [Option.isSome_some, Bool.not_true, Bool.false_eq_true, if_false, hcap,
      Bool.not_false, if_true]
  · intro e dm' h
    unfold DataManager.set_flight_delay AdminPanel.is_authenticated at h
    cases hadm : dm.admin_panel.current_admin with
    | none =>
        rw [hadm] at h
        exact (congrArg Prod.snd h).symm
    | some adm =>
        rw [hadm] at h
        simp only [Option.isSome_some, Bool.not_true, Bool.false_eq_true, if_false] at h
        by_cases hcap : adm.can_manage_flights = true
        · simp only [hcap, Bool.not_true, Bool.false_eq_true, if_false] at h
          cases hex : extractFirst (fun g => g.flight_number == flight_number)
              dm.database.flights with
          | none =>
              simp only [hex] at h
              exact (congrArg Prod.snd h).symm
          | some res =>
              obtain ⟨pre, f, post⟩ := res
              simp only [hex] at h
              exact absurd (congrArg Prod.fst h) (by simp)
        · have hcap' : adm.can_manage_flights = false := by
            cases hq : adm.can_manage_flights
            · rfl
            · exact absurd hq hcap
          simp only [hcap', Bool.not_false, if_true] at h
          exact (congrArg Prod.snd h).symm
  · intro adm pre f post hadm hcap hex
    unfold DataManager.set_flight_delay AdminPanel.is_authenticated
    rw [hadm]
    simp only [Option.isSome_some, Bool.not_true, Bool.false_eq_true, if_false, hcap,
      hex, AdminPanel.log_action]

/-- A read-only admin for the C7 witness. -/
def viewerAdmin : AdminUser :=
  { id := 9, username := "viewer".data, full_name := "View Only".data,
    email := "viewer@rust-airport.com".data, level := AdminLevel.Viewer,
    created_date := 0, last_login := none, is_active := true }

/-- The sample state with a Viewer-level admin logged in. -/
def sampleDMViewer : DataManager :=
  { sampleDM with admin_panel :=
      { sampleDM.admin_panel with current_admin := some viewerAdmin } }

/-- Closed instance of C7: a Viewer calling set_flight_delay is refused and
the state (audit log included) is unchanged. -/
theorem set_flight_delay_spec_witness :
    sampleDMViewer.set_flight_delay 1 0 ("RIA101".data) 30 =
      (Except.error ("Insufficient permissions to manage flights".data), sampleDMViewer) := by
  exact (set_flight_delay_spec sampleDMViewer 1 0 ("RIA101".data) 30).2.1 viewerAdmin rfl rfl

theorem set_delay_arrival_mono (f : Flight) (m : Int) :
    f.arrival_time ≤ (f.set_delay m).arrival_time := by
  unfold Flight.set_delay
  by_cases h : m > 0
  · rw [if_pos h]
    simp only
    omega
  · rw [if_neg h]

theorem foldl_set_delay_mono (f : Flight) (ms : List Int) :
    f.arrival_time ≤ (ms.foldl (fun g m => g.set_delay m) f).arrival_time := by
  induction ms generalizing f with
  | nil => exact le_refl _
  | cons m rest ih =>
      exact le_trans (set_delay_arrival_mono f m) (ih (f.set_delay m))

/-- C8: positive minutes set status Delayed(minutes) and shift the arrival
time forward by exactly that many minutes (60·m seconds), all other fields
unchanged; non-positive minutes reset the status to OnTime and leave the
arrival time untouched; the departure time never changes, and the arrival
time is monotonically non-decreasing across any sequence of set_delay
calls. -/
theorem set_delay_spec (f : Flight) (minutes : Int) (ms : List Int) :
    (0 < minutes → f.set_delay minutes =
      { f with status := FlightStatus.Delayed minutes,
               arrival_time := f.arrival_time + 60 * minutes }) ∧
    (minutes ≤ 0 → f.set_delay minutes = { f with status := FlightStatus.OnTime }) ∧
    (f.set_delay minutes).departure_time = f.departure_time ∧
    f.arrival_time ≤ (f.set_delay minutes).arrival_time ∧
    f.arrival_time ≤ (ms.foldl (fun g m => g.set_delay m) f).arrival_time := by
  refine ⟨?_, ?_, ?_, set_delay_arrival_mono f minutes, foldl_set_delay_mono f ms⟩
  · intro h
    unfold Flight.set_delay
    rw [if_pos h]
  · intro h
    unfold Flight.set_delay
    rw [if_neg (by omega)]
  · unfold Flight.set_delay
    by_cases h : minutes > 0
    · rw [if_pos h]
    · rw [if_neg h]

/-- Closed instance of C8: a 45-minute delay on the sample flight, and
monotonicity of the arrival time across a delay-then-clear sequence. -/
theorem set_delay_spec_witness :
    sampleFlight.set_delay 45 =
      { sampleFlight with status := FlightStatus.Delayed 45,
                          arrival_time := sampleFlight.arrival_time + 60 * 45 } ∧
    sampleFlight.arrival_time ≤
      (([45, 0] : List Int).foldl (fun g m => g.set_delay m) sampleFlight).arrival_time := by
  exact ⟨(set_delay_spec sampleFlight 45 [45, 0]).1 (by decide),
    (set_delay_spec sampleFlight 45 [45, 0]).2.2.2.2⟩

/-- C4: one simulation tick (cooldown elapsed) maps every flight through
`stepFlight`; from OnTime/Delayed the step follows the claim's chain
(Boarding within the 30-minute window, Departed between departure and
arrival, Arrived after arrival, otherwise unchanged — in particular a
flight more than 30 minutes from a not-yet-passed arrival stays put);
Boarding advances to Departed once departure has passed; Departed advances
to Arrived once arrival has passed; Cancelled and Arrived flights are
never changed. -/
theorem update_simulation_flight_spec (dm : DataManager) (now : Int) :
    (60 ≤ now - dm.last_simulation_update →
      (dm.update_simulation now).database.flights =
        dm.database.flights.map (stepFlight now)) ∧
    (∀ f : Flight,
      (f.status = FlightStatus.OnTime ∨ ∃ m, f.status = FlightStatus.Delayed m) →
      stepFlight now f =
        if 0 < f.departure_time - now ∧ f.departure_time - now ≤ 60 * 30 then
          { f with status := FlightStatus.Boarding }
        else if f.departure_time ≤ now ∧ now < f.arrival_time then
          { f with status := FlightStatus.Departed }
        else if f.arrival_time ≤ now then
          { f with status := FlightStatus.Arrived }
        else f) ∧
    (∀ f : Flight,
      (f.status = FlightStatus.OnTime ∨ ∃ m, f.status = FlightStatus.Delayed m) →
      60 * 30 < f.departure_time - now → now < f.arrival_time →
      stepFlight now f = f) ∧
    (∀ f : Flight, f.status = FlightStatus.Boarding →
      stepFlight now f =
        if f.departure_time ≤ now then { f with status := FlightStatus.Departed } else f) ∧
    (∀ f : Flight, f.status = FlightStatus.Departed →
      stepFlight now f =
        if f.arrival_time ≤ now then { f with status := FlightStatus.Arrived } else f) ∧
    (∀ f : Flight, (f.status = FlightStatus.Cancelled ∨ f.status = FlightStatus.Arrived) →
      stepFlight now f = f) := by
  refine ⟨?_, ?_, ?_, ?_, ?_, ?_⟩
  · intro h
    unfold DataManager.update_simulation
    rw [if_neg (by omega)]
  · intro f hs
    rcases hs with hs | ⟨m, hs⟩ <;>
      · simp only [stepFlight, hs]
        split_ifs <;> first | rfl | omega
  · intro f hs h30 harr
    rcases hs with hs | ⟨m, hs⟩ <;>
      · simp only [stepFlight, hs]
        split_ifs <;> first | rfl | omega
  · intro f hs
    simp only [stepFlight, hs]
    split_ifs <;> first | rfl | omega
  · intro f hs
    simp only [stepFlight, hs]
    split_ifs <;> first | rfl | omega
  · intro f hs
    rcases hs with hs | hs <;> simp only [stepFlight, hs]

/-- A flight 20 minutes from departure at time 1000. -/
def boardingSoonFlight : Flight :=
  { sampleFlight with departure_time := 2200, arrival_time := 10000 }

/-- A flight 40 minutes from departure at time 1000. -/
def notYetBoardingFlight : Flight :=
  { sampleFlight with id := 2, departure_time := 3400, arrival_time := 10000 }

/-- The sample state holding the two simulator test flights. -/
def sampleSimDM : DataManager :=
  { sampleDM with database :=
      { sampleDM.database with flights := [boardingSoonFlight, notYetBoardingFlight] } }

/-- Closed instance of C4: at time 1000 the 20-minute flight boards and the
40-minute flight is untouched. -/
theorem update_simulation_flight_spec_witness :
    (sampleSimDM.update_simulation 1000).database.flights =
      [{ boardingSoonFlight with status := FlightStatus.Boarding },
       notYetBoardingFlight] := by
  rw [(update_simulation_flight_spec sampleSimDM 1000).1 (by decide)]
  rfl

theorem boarding_or_departed_eq_true (s : FlightStatus) :
    ((match s with
      | FlightStatus.Boarding => true
      | FlightStatus.Departed => true
      | _ => false) = true) ↔
      (s = FlightStatus.Boarding ∨ s = FlightStatus.Departed) := by
  cases s <;> simp

/-- C6: one simulation tick maps every aircraft through `stepAircraft`
against the already-advanced flight list; an Active aircraft referenced by
a Boarding/Departed flight becomes InFlight, an InFlight aircraft with no
such flight reverts to Active, and Maintenance/Retired aircraft are never
changed; `hasActiveFlight` holds exactly when some flight references the
aircraft and is Boarding or Departed. -/
theorem update_simulation_aircraft_spec (dm : DataManager) (now : Int) :
    (60 ≤ now - dm.last_simulation_update →
      (dm.update_simulation now).database.aircraft =
        dm.database.aircraft.map
          (stepAircraft (dm.database.flights.map (stepFlight now)))) ∧
    (∀ (flights : List Flight) (a : Aircraft),
      (a.status = AircraftStatus.Active → hasActiveFlight flights a.id = true →
        stepAircraft flights a = { a with status := AircraftStatus.InFlight }) ∧
      (a.status = AircraftStatus.Active → hasActiveFlight flights a.id = false →
        stepAircraft flights a = a) ∧
      (a.status = AircraftStatus.InFlight → hasActiveFlight flights a.id = false →
        stepAircraft flights a = { a with status := AircraftStatus.Active }) ∧
      (a.status = AircraftStatus.InFlight → hasActiveFlight flights a.id = true →
        stepAircraft flights a = a) ∧
      ((a.status = AircraftStatus.Maintenance ∨ a.status = AircraftStatus.Retired) →
        stepAircraft flights a = a)) ∧
    (∀ (flights : List Flight) (aid : Nat),
      hasActiveFlight flights aid = true ↔
        ∃ f ∈ flights, f.aircraft_id = aid ∧
          (f.status = FlightStatus.Boarding ∨ f.status = FlightStatus.Departed)) := by
  refine ⟨?_, ?_, ?_⟩
  · intro h
    unfold DataManager.update_simulation
    rw [if_neg (by omega)]
  · intro flights a
    refine ⟨?_, ?_, ?_, ?_, ?_⟩
    · intro hst hact
      simp only [stepAircraft, hst, hact, if_true]
    · intro hst hact
      simp only [stepAircraft, hst, hact, Bool.false_eq_true, if_false]
    · intro hst hact
      simp only [stepAircraft, hst, hact, Bool.not_false, if_true]
    · intro hst hact
      simp only [stepAircraft, hst, hact, Bool.not_true, Bool.false_eq_true, if_false]
    · intro hst
      rcases hst with hst | hst <;> simp only [stepAircraft, hst]
  · intro flights aid
    simp only [hasActiveFlight, List.any_eq_true, Bool.and_eq_true, beq_iff_eq,
      boarding_or_departed_eq_true]

/-- An Active aircraft referenced by the boarding sample flight, for the
C6 witness. -/
def sampleAircraft : Aircraft :=
  { id := 7, registration := "N123RA".data, model := "Boeing 737-800".data,
    manufacturer := "Boeing".data, year_manufactured := 2015,
    status := AircraftStatus.Active, total_capacity := 189,
    baggage_capacity_kg := 2000, max_cargo_weight_kg := 20000,
    maintenance_hours := 0, flight_hours := 0 }

/-- Closed instance of C6: the Active sample aircraft referenced by a
Boarding flight becomes InFlight. -/
theorem update_simulation_aircraft_spec_witness :
    stepAircraft [{ boardingSoonFlight with status := FlightStatus.Boarding }]
      sampleAircraft = { sampleAircraft with status := AircraftStatus.InFlight } := by
  exact (((update_simulation_aircraft_spec sampleDM 0).2.1
    [{ boardingSoonFlight with status := FlightStatus.Boarding }] sampleAircraft).1
    rfl (by decide))

theorem digitChar_isDigit (k : Nat) (h : k < 10) :
    (Nat.digitChar k).isDigit = true := by
  interval_cases k <;> decide

/-- C9 (amended): every generated ticket number is the airline prefix "RIA"
followed by exactly six decimal digits, and a booking built by
`Booking.new` (as `create_booking` does) carries exactly the generated
ticket number for its seed; uniqueness across bookings is NOT guaranteed
by the generator. -/
theorem ticket_number_format (seed : Nat) :
    (generate_ticket_number seed).take 3 = "RIA".data ∧
    (generate_ticket_number seed).length = 9 ∧
    (∀ ch ∈ (generate_ticket_number seed).drop 3, ch.isDigit = true) ∧
    (∀ (flight_id : Nat) (passenger : Passenger) (seat_class : SeatClass)
       (amount : ℚ) (method : List Char) (now : Int) (bookingId txnId : Nat),
      (Booking.new flight_id passenger seat_class amount method now bookingId
        seed txnId).ticket_number = generate_ticket_number seed) := by
  refine ⟨rfl, rfl, ?_, ?_⟩
  · intro ch hch
    have hdrop : (generate_ticket_number seed).drop 3 = pad6 (seed % 1000000) := rfl
    rw [hdrop] at hch
    simp only [pad6, List.mem_cons, List.not_mem_nil, or_false] at hch
    rcases hch with rfl | rfl | rfl | rfl | rfl | rfl <;>
      exact digitChar_isDigit _ (Nat.mod_lt _ (by norm_num))
  · intro flight_id passenger seat_class amount method now bookingId txnId
    rfl

/-- Closed instance of C9's amended statement at seed 42. -/
theorem ticket_number_format_witness :
    (generate_ticket_number 42).take 3 = "RIA".data ∧ ('4' : Char).isDigit = true :=
  ⟨(ticket_number_format 42).1, (ticket_number_format 42).2.2.1 '4' (by decide)⟩

/-- C9 counterexample: two bookings created through `create_booking` with
the time-hash seeds 0 and 1000000 are distinct bookings (ids 100 and 101)
yet carry the same ticket number "RIA000000", so ticket numbers are not
unique across distinct bookings. -/
theorem ticket_number_not_unique :
    (((sampleDM.create_booking 0 100 0 200 1 samplePassenger
        SeatClass.Economy).2.create_booking
        0 101 1000000 201 1 samplePassenger SeatClass.Economy).2.database.bookings.map
        (fun b => b.id)) = [100, 101] ∧
    (((sampleDM.create_booking 0 100 0 200 1 samplePassenger
        SeatClass.Economy).2.create_booking
        0 101 1000000 201 1 samplePassenger SeatClass.Economy).2.database.bookings.map
        (fun b => b.ticket_number)) = ["RIA000000".data, "RIA000000".data] := by
  constructor <;> rfl
